import Mathlib

/-!
Verification development for the AutoGradenParser repository.

The development shallowly embeds the two core components:

* `src/importer.py` (`Importer.import_data`): three regular-expression line
  shapes tried in order (initialization, measurement, generic fallback);
  matched lines append one row to the database, unmatched lines are dropped.
  The regex matchers are hand-compiled to character-level functions; each
  matcher's doc comment records the regex it embeds.  Character classes are
  modelled over ASCII.

* `src/analyzer.py` (`IrrigationAnalyzer._prepare_data`,
  `calculate_compliance_score`, `get_irrigation_recommendations`):
  sensor-kind inference, sensor-to-garden fan-out, compliance scoring and
  recommendation derivation.  Python float arithmetic is idealized as `ℚ`;
  `datetime.now()` is passed explicitly as the `now` argument; a raised
  exception (`KeyError`, `TypeError`) is modelled as `Except.error`.
-/

deriving instance DecidableEq for Except

namespace AG

/-- Value of the `value` column of the database: a float measurement or a
string.  In the source the `Init` marker is literally the string `"Init"`,
so it is represented here as `Value.str "Init"` (a free-text payload is any
other `Value.str`).  Floats are idealized as rationals. -/
inductive Value where
  | num (q : ℚ)
  | str (s : String)
deriving DecidableEq, Repr

/-- Check for the `Init` marker, as the source's comparison `value != 'Init'`
sees it (a string equal to `"Init"`). -/
def isInitVal : Value → Bool
  | .num _ => false
  | .str s => s == "Init"

/-- The numeric content of a value, when there is one. -/
def valNum : Value → Option ℚ
  | .num q => some q
  | .str _ => none

/-- One row of the importer's database (columns
`['timestamp', 'level', 'type', 'sensor_id', 'value']`).  The timestamp is
the parsed instant, encoded as a rational (see `encodeInstant`). -/
structure Reading where
  timestamp : ℚ
  level : String
  rtype : String
  sensor_id : Option String
  value : Value
deriving DecidableEq, Repr

/-! ### Character classes of the regexes (ASCII model) -/

/-- Python regex `\d` (ASCII). -/
def isDigitC (c : Char) : Bool := c.isDigit

/-- Python regex `\w` (ASCII part: letters, digits, underscore). -/
def isWordC (c : Char) : Bool := c.isAlphanum || c == '_'

/-- Python regex `\s` (ASCII part). -/
def isSpaceC (c : Char) : Bool :=
  c == ' ' || c == '\t' || c == '\n' || c == '\r' || c == '\x0b' || c == '\x0c'

/-! ### Elementary matching steps -/

/-- Consume one expected character. -/
def expectC (c : Char) : List Char → Option (List Char)
  | [] => none
  | x :: rest => if x = c then some rest else none

/-- Consume an expected literal string of characters. -/
def expectL : List Char → List Char → Option (List Char)
  | [], rest => some rest
  | c :: cs, rest => (expectC c rest).bind (expectL cs)

/-- Greedy `class+`: one or more characters of a class.  The callers only use
this where the following regex token is disjoint from the class, so greedy
matching without backtracking coincides with the regex semantics. -/
def takePlus (p : Char → Bool) (cs : List Char) : Option (List Char × List Char) :=
  let t := cs.takeWhile p
  if t.isEmpty then none else some (t, cs.dropWhile p)

/-- Exactly `n` characters of a class (regex `class{n}`). -/
def takeN (p : Char → Bool) : Nat → List Char → Option (List Char × List Char)
  | 0, cs => some ([], cs)
  | _ + 1, [] => none
  | n + 1, c :: cs =>
    if p c then (takeN p n cs).map (fun r => (c :: r.1, r.2)) else none

/-- The optional group `(?:\[id=(\d+)\])?`: committed match of the inner
group when it fits, no consumption otherwise.  (Backtracking out of the
group can never rescue an overall match, because the tokens that follow it
in every shape — `:` or `\s` — match neither `[` nor a word character.) -/
def tryId (cs : List Char) : Option (List Char × List Char) :=
  match expectC '[' cs with
  | none => none
  | some r1 =>
    match expectL ("id=".toList) r1 with
    | none => none
    | some r2 =>
      match takePlus isDigitC r2 with
      | none => none
      | some (d, r3) =>
        match expectC ']' r3 with
        | none => none
        | some r4 => some (d, r4)

/-- Raw captures common to all three shapes: timestamp text, severity level,
device-type token, optional sensor id. -/
structure RawHead where
  ts : List Char
  level : List Char
  rtype : List Char
  sid : Option (List Char)
deriving DecidableEq, Repr

/-- Shared front of shapes 1 and 2:
`\[([\d-]+ [\d:.]+)\]\s+(\w+)\s+(\w+)(?:\[id=(\d+)\])?`. -/
def matchHead12 (cs : List Char) : Option (RawHead × List Char) :=
  match expectC '[' cs with
  | none => none
  | some r1 =>
    match takePlus (fun c => isDigitC c || c == '-') r1 with
    | none => none
    | some (t1, r2) =>
      match expectC ' ' r2 with
      | none => none
      | some r3 =>
        match takePlus (fun c => isDigitC c || c == ':' || c == '.') r3 with
        | none => none
        | some (t2, r4) =>
          match expectC ']' r4 with
          | none => none
          | some r5 =>
            match takePlus isSpaceC r5 with
            | none => none
            | some (_, r6) =>
              match takePlus isWordC r6 with
              | none => none
              | some (lvl, r7) =>
                match takePlus isSpaceC r7 with
                | none => none
                | some (_, r8) =>
                  match takePlus isWordC r8 with
                  | none => none
                  | some (typ, r9) =>
                    match tryId r9 with
                    | some (d, r10) =>
                      some (⟨t1 ++ ' ' :: t2, lvl, typ, some d⟩, r10)
                    | none => some (⟨t1 ++ ' ' :: t2, lvl, typ, none⟩, r9)

/-- Shape 1 (initialization line), embedding the regex
`\[([\d-]+ [\d:.]+)\]\s+(\w+)\s+(\w+)(?:\[id=(\d+)\])?:?\s+Initialized sensor`
from `Importer.import_data`. -/
def matchInit (cs : List Char) : Option RawHead :=
  match matchHead12 cs with
  | none => none
  | some (h, r) =>
    let r1 := match expectC ':' r with
      | some r0 => r0
      | none => r
    match takePlus isSpaceC r1 with
    | none => none
    | some (_, r2) =>
      match expectL ("Initialized sensor".toList) r2 with
      | none => none
      | some _ => some h

/-- Shape 2 (measurement line), embedding the regex
`^\[([\d-]+ [\d:.]+)\]\s+(\w+)\s+(\w+)(?:\[id=(\d+)\])?:\s*\w+=(\d+(?:\.\d+)?)`
from `Importer.import_data`.  Returns the head captures and the number
capture (group 5) as raw characters. -/
def matchMeas (cs : List Char) : Option (RawHead × List Char) :=
  match matchHead12 cs with
  | none => none
  | some (h, r) =>
    match expectC ':' r with
    | none => none
    | some r1 =>
      let r2 := r1.dropWhile isSpaceC
      match takePlus isWordC r2 with
      | none => none
      | some (_, r3) =>
        match expectC '=' r3 with
        | none => none
        | some r4 =>
          match takePlus isDigitC r4 with
          | none => none
          | some (ip, r5) =>
            match r5 with
            | '.' :: r6 =>
              match takePlus isDigitC r6 with
              | some (fp, _) => some (h, ip ++ '.' :: fp)
              | none => some (h, ip)
            | _ => some (h, ip)

/-- Shape 3 (generic fallback line), embedding the regex
`\[(\d{4}-\d{2}-\d{2} [\d:.]+)\]\s+(\w+)\s+(\w+)(?:\[id=(\d+)\])?:\s*(.+)`
from `Importer.import_data`.  Returns the head captures and the free-text
capture (group 5).  The `\s*(.+)` tail is modelled with its one relevant
backtracking case: when nothing follows the whitespace run, the regex gives
back the last whitespace character not equal to `'\n'` for `.+` to match. -/
def matchFallback (cs : List Char) : Option (RawHead × List Char) :=
  match expectC '[' cs with
  | none => none
  | some r1 =>
    match takeN isDigitC 4 r1 with
    | none => none
    | some (y, r2) =>
      match expectC '-' r2 with
      | none => none
      | some r3 =>
        match takeN isDigitC 2 r3 with
        | none => none
        | some (mo, r4) =>
          match expectC '-' r4 with
          | none => none
          | some r5 =>
            match takeN isDigitC 2 r5 with
            | none => none
            | some (d, r6) =>
              match expectC ' ' r6 with
              | none => none
              | some r7 =>
                match takePlus (fun c => isDigitC c || c == ':' || c == '.') r7 with
                | none => none
                | some (t2, r8) =>
                  match expectC ']' r8 with
                  | none => none
                  | some r9 =>
                    match takePlus isSpaceC r9 with
                    | none => none
                    | some (_, r10) =>
                      match takePlus isWordC r10 with
                      | none => none
                      | some (lvl, r11) =>
                        match takePlus isSpaceC r11 with
                        | none => none
                        | some (_, r12) =>
                          match takePlus isWordC r12 with
                          | none => none
                          | some (typ, r13) =>
                            let (sid, r14) := match tryId r13 with
                              | some (i, r) => (some i, r)
                              | none => (none, r13)
                            match expectC ':' r14 with
                            | none => none
                            | some r15 =>
                              let ts := y ++ '-' :: mo ++ '-' :: d ++ ' ' :: t2
                              let w := r15.takeWhile isSpaceC
                              let rest := r15.dropWhile isSpaceC
                              match rest with
                              | c :: cs0 => some (⟨ts, lvl, typ, sid⟩, c :: cs0)
                              | [] =>
                                match (w.reverse.dropWhile (fun c => c == '\n')) with
                                | [] => none
                                | c :: _ => some (⟨ts, lvl, typ, sid⟩, [c])

/-! ### Timestamp and number conversion -/

/-- Numeric value of a digit string. -/
def digitsToNat : List Char → Nat
  | [] => 0
  | c :: cs => digitsToNat cs + c.toNat.sub 48 * 10 ^ cs.length

/-- Days of a month in the Gregorian calendar. -/
def daysInMonth (y mo : Nat) : Nat :=
  if mo = 2 then
    if y % 4 = 0 && (y % 100 != 0 || y % 400 = 0) then 29 else 28
  else if mo = 4 || mo = 6 || mo = 9 || mo = 11 then 30
  else 31

/-- Order-preserving rational encoding of a calendar instant; the fractional
part carries the sub-second digits. -/
def encodeInstant (y mo d h mi s : Nat) (fracDigits : List Char) : ℚ :=
  (((((y * 12 + (mo - 1)) * 31 + (d - 1)) * 24 + h) * 60 + mi) * 60 + s : ℚ)
    + (digitsToNat fracDigits : ℚ) / (10 ^ fracDigits.length : ℚ)

/-- Modelled from the spec: the timestamp format accepted by the pipeline is
`YYYY-MM-DD HH:MM:SS[.fff]`, "parsed to an absolute instant; parse failure on
the timestamp portion is a hard reject for that line".  The source delegates
this to the external library call `pd.to_datetime(match.group(1))`, whose
code is not part of this repository; a raised parse error is modelled as
`none`. -/
def parseTimestamp (cs : List Char) : Option ℚ :=
  match takeN isDigitC 4 cs with
  | none => none
  | some (ys, r1) =>
    match expectC '-' r1 with
    | none => none
    | some r2 =>
      match takeN isDigitC 2 r2 with
      | none => none
      | some (mos, r3) =>
        match expectC '-' r3 with
        | none => none
        | some r4 =>
          match takeN isDigitC 2 r4 with
          | none => none
          | some (ds, r5) =>
            match expectC ' ' r5 with
            | none => none
            | some r6 =>
              match takeN isDigitC 2 r6 with
              | none => none
              | some (hs, r7) =>
                match expectC ':' r7 with
                | none => none
                | some r8 =>
                  match takeN isDigitC 2 r8 with
                  | none => none
                  | some (mis, r9) =>
                    match expectC ':' r9 with
                    | none => none
                    | some r10 =>
                      match takeN isDigitC 2 r10 with
                      | none => none
                      | some (ss, r11) =>
                        let fr : Option (List Char) := match r11 with
                          | [] => some []
                          | '.' :: r12 =>
                            match takePlus isDigitC r12 with
                            | some (fp, []) => some fp
                            | _ => none
                          | _ => none
                        match fr with
                        | none => none
                        | some fp =>
                          let y := digitsToNat ys
                          let mo := digitsToNat mos
                          let d := digitsToNat ds
                          let h := digitsToNat hs
                          let mi := digitsToNat mis
                          let s := digitsToNat ss
                          if 1 ≤ mo && mo ≤ 12 && 1 ≤ d && d ≤ daysInMonth y mo
                              && h ≤ 23 && mi ≤ 59 && s ≤ 59 then
                            some (encodeInstant y mo d h mi s fp)
                          else none

/-- Exact rational value of a decimal literal `digits(.digits)?`, embedding
Python's `float(match.group(5))` (idealized: no binary rounding). -/
def parseDecimal (cs : List Char) : ℚ :=
  match cs.span (fun c => c != '.') with
  | (ip, []) => (digitsToNat ip : ℚ)
  | (ip, _ :: fp) =>
    (digitsToNat ip : ℚ) + (digitsToNat fp : ℚ) / (10 ^ fp.length : ℚ)

/-- Assemble the database row appended for a matched line: head captures
plus the computed value column. -/
def readingOf (h : RawHead) (t : ℚ) (v : Value) : Reading :=
  { timestamp := t, level := ⟨h.level⟩, rtype := ⟨h.rtype⟩,
    sensor_id := h.sid.map (fun l => (⟨l⟩ : String)), value := v }

/-- One loop iteration of `Importer.import_data` on an already-stripped line:
try the three shapes in order, first match wins; convert the timestamp; a
timestamp conversion failure inside a matched branch aborts that line (the
`except` clause logs and drops it) without falling through to later shapes.
Returns the appended database row, or `none` when the line is dropped.  The
function is total: no input raises. -/
def parseLine (cs : List Char) : Option Reading :=
  match matchInit cs with
  | some h => (parseTimestamp h.ts).map (fun t => readingOf h t (.str "Init"))
  | none =>
    match matchMeas cs with
    | some (h, numCs) =>
      (parseTimestamp h.ts).map (fun t => readingOf h t (.num (parseDecimal numCs)))
    | none =>
      match matchFallback cs with
      | some (h, txt) =>
        (parseTimestamp h.ts).map (fun t => readingOf h t (.str ⟨txt⟩))
      | none => none

/-- The head captures of the shape that wins on a line, in the precedence
order of `parseLine`. -/
def headOfLine (cs : List Char) : Option RawHead :=
  match matchInit cs with
  | some h => some h
  | none =>
    match matchMeas cs with
    | some (h, _) => some h
    | none => (matchFallback cs).map (fun p => p.1)

/-- Python's `line.strip()`. -/
def stripLine (s : String) : List Char :=
  (((s.toList.dropWhile isSpaceC).reverse.dropWhile isSpaceC).reverse)

/-- Parse one raw line as `Importer.import_data` does: strip, then match. -/
def parseLineS (s : String) : Option Reading :=
  parseLine (stripLine s)

/-- The database built by `Importer.import_data` from the raw lines: each
successfully parsed line appends one row, in input order; other lines leave
the database unchanged. -/
def importDatabase (lines : List String) : List Reading :=
  lines.filterMap parseLineS

/-- Number of lines of a batch that `Importer.import_data` drops (lines
matching no shape, or whose timestamp conversion fails).  The source exposes
this count only implicitly, as the number of input lines that contributed no
database row. -/
def skippedCount (lines : List String) : Nat :=
  lines.countP (fun l => (parseLineS l).isNone)

/-! ### Configuration model (`garden_config`) -/

/-- One entry of the `gardens` collection. -/
structure GardenInfo where
  name : String
  location : String
  vegetable_type : String
  active : Bool
deriving DecidableEq, Repr

/-- One entry of the `sensors` collection. -/
structure SensorInfo where
  name : String
  model : String
deriving DecidableEq, Repr

/-- An inclusive `min`/`max` target range of a vegetable profile. -/
structure RangeInfo where
  minV : ℚ
  maxV : ℚ
deriving DecidableEq, Repr

/-- The configuration payload, as association lists in stored (insertion)
order: `gardens`, `vegetables` (crop type → sensor kind → range), `sensors`
and `sensor_garden_mapping`. -/
structure Config where
  gardens : List (String × GardenInfo)
  vegetables : List (String × List (String × RangeInfo))
  sensors : List (String × SensorInfo)
  sensor_garden_mapping : List (String × List String)
deriving DecidableEq, Repr

/-! ### `IrrigationAnalyzer._prepare_data` -/

/-- Substring containment test (`'Temperature' in sensor_info['name']`). -/
def startsWithL : List Char → List Char → Bool
  | [], _ => true
  | _ :: _, [] => false
  | p :: ps, c :: cs => p == c && startsWithL ps cs

/-- Check whether `pat` occurs contiguously anywhere in `s`. -/
def hasSubL (pat : List Char) : List Char → Bool
  | [] => startsWithL pat []
  | c :: cs => startsWithL pat (c :: cs) || hasSubL pat cs

/-- Python's `pat in s` on strings. -/
def strContains (s pat : String) : Bool := hasSubL pat.toList s.toList

/-- Sensor-kind inference of `_prepare_data`: substring match on the sensor
name, first match wins in the order Temperature, Moisture, Light, Humidity,
Pump; no match leaves the sensor out of `sensor_type_map`. -/
def kindOfName (n : String) : Option String :=
  if strContains n "Temperature" then some "temperature"
  else if strContains n "Moisture" then some "moisture"
  else if strContains n "Light" then some "light"
  else if strContains n "Humidity" then some "humidity"
  else if strContains n "Pump" then some "pump"
  else none

/-- `sensor_type_map` lookup composed with the sensor lookup: the inferred
kind of a sensor id (missing sensor or undetected kind gives `none`,
pandas' `NaN`). -/
def sensorTypeOf (cfg : Config) (sid : String) : Option String :=
  match List.lookup sid cfg.sensors with
  | none => none
  | some info => kindOfName info.name

/-- A database row after the mapping steps of `_prepare_data`: the
`sensor_type` and `garden_ids` columns are attached (both possibly `NaN`,
modelled as `none`). -/
structure TRow where
  timestamp : ℚ
  sensor_id : Option String
  sensor_type : Option String
  garden_ids : Option (List String)
  value : Value
deriving DecidableEq, Repr

/-- The two `map` steps of `_prepare_data` on one row: attach `sensor_type`
(inferred from the sensor name) and `garden_ids` (from
`sensor_garden_mapping`); a row without a sensor id, or with an unknown
sensor, gets `NaN` (`none`) in both columns. -/
def typeRow (cfg : Config) (r : Reading) : TRow :=
  { timestamp := r.timestamp,
    sensor_id := r.sensor_id,
    sensor_type := r.sensor_id.bind (sensorTypeOf cfg),
    garden_ids := r.sensor_id.bind (fun s => List.lookup s cfg.sensor_garden_mapping),
    value := r.value }

/-- The two `map` steps of `_prepare_data` over the whole database. -/
def typeRows (cfg : Config) (rows : List Reading) : List TRow :=
  rows.map (typeRow cfg)

/-- The `self.df = self.df[self.df['value'] != 'Init']` filter of
`_prepare_data`: rows whose value is the string `"Init"` are removed before
expansion. -/
def keptRows (cfg : Config) (rows : List Reading) : List TRow :=
  (typeRows cfg rows).filter (fun r => !(isInitVal r.value))

/-- A row of `expanded_df`: one `ZoneReading`, a kept row fanned out to one
garden and enriched with that garden's vegetable type and location. -/
structure ZRow where
  timestamp : ℚ
  sensor_id : Option String
  sensor_type : Option String
  value : Value
  garden_id : String
  vegetable_type : String
  location : String
deriving DecidableEq, Repr

/-- The `ZRow` created for one kept row and one garden: the row's copy is
enriched with the garden id and that garden's vegetable type and location
(a snapshot taken at expansion time). -/
def zrowMk (r : TRow) (g : String) (gd : GardenInfo) : ZRow :=
  { timestamp := r.timestamp, sensor_id := r.sensor_id,
    sensor_type := r.sensor_type, value := r.value,
    garden_id := g, vegetable_type := gd.vegetable_type,
    location := gd.location }

/-- Fan one kept row out over its garden-id list.  The source indexes
`self.gardens[garden_id]` directly, so a garden id absent from `gardens`
raises a `KeyError` (modelled as `Except.error`), aborting the whole
preparation at the first offending id. -/
def expandZones (cfg : Config) (r : TRow) : List String → Except String (List ZRow)
  | [] => .ok []
  | g :: gs =>
    match List.lookup g cfg.gardens with
    | none => .error ("KeyError: " ++ g)
    | some gd =>
      match expandZones cfg r gs with
      | .error e => .error e
      | .ok rest => .ok (zrowMk r g gd :: rest)

/-- Expansion of one row: rows with `NaN` garden ids contribute nothing (the
`safe_isna` guard); the `len(...) > 0` guard is subsumed by the recursion on
the list. -/
def expandRow (cfg : Config) (r : TRow) : Except String (List ZRow) :=
  match r.garden_ids with
  | none => .ok []
  | some gs => expandZones cfg r gs

/-- The expansion loop of `_prepare_data` over all kept rows, in input
order. -/
def expandRows (cfg : Config) : List TRow → Except String (List ZRow)
  | [] => .ok []
  | r :: rs =>
    match expandRow cfg r with
    | .error e => .error e
    | .ok zs =>
      match expandRows cfg rs with
      | .error e => .error e
      | .ok rest => .ok (zs ++ rest)

/-- `IrrigationAnalyzer._prepare_data`: attach sensor types and garden ids,
drop `Init` rows, then expand each remaining row to one `ZRow` per mapped
garden.  The result is `expanded_df`; a `KeyError` aborts the analyzer's
construction.  (One pandas corner is idealized: an expansion producing zero
rows gives `expanded_df` no columns at all, so any later column selection
would raise; the model keeps the empty row list.  No theorem below relies on
an entirely empty expansion.) -/
def prepareData (cfg : Config) (rows : List Reading) : Except String (List ZRow) :=
  expandRows cfg (keptRows cfg rows)

/-- The successful expansion of one row, described directly: one `ZRow` per
mapped garden id that is present in `gardens`, in the mapping's stored
order.  When every mapped id is present this is what `expandRow` returns. -/
def expandRowD (cfg : Config) (r : TRow) : List ZRow :=
  (r.garden_ids.getD []).filterMap (fun g => (List.lookup g cfg.gardens).map (zrowMk r g))

/-! ### `IrrigationAnalyzer.calculate_compliance_score` -/

/-- Per-kind detail dictionary: either the `No data` dictionary
(`status = 'No data'`, `avg_value = None`) or the full statistics
dictionary. -/
inductive Detail where
  | noData
  | stats (status : String) (avg : ℚ) (omin omax : ℚ) (n k : Nat)
deriving DecidableEq, Repr

/-- The `status` field of a detail dictionary. -/
def Detail.statusOf : Detail → String
  | .noData => "No data"
  | .stats st _ _ _ _ _ => st

/-- The compliance dictionary returned by `calculate_compliance_score`
(the wall-clock `timestamp` field is omitted from the model). -/
structure ComplianceResult where
  garden_id : String
  vegetable_type : String
  overall_score : ℚ
  individual_scores : List (String × Option ℚ)
  details : List (String × Detail)
deriving DecidableEq, Repr

/-- Score one sensor kind over its selected rows, embedding the loop body of
`calculate_compliance_score`: an empty selection yields the explicit
`No data` state; otherwise the range comparison
`(sensor_data['value'] >= optimal_min) & (sensor_data['value'] <= optimal_max)`
is evaluated — on a selection containing a non-numeric value this elementwise
comparison of a string with a number raises a `TypeError` (modelled as
`Except.error`); on an all-numeric selection the score is
`len(in_range) / len(sensor_data) * 100`, the average is the mean of all
selected values, and the status tier is `Good` (≥ 80), `Needs Attention`
(≥ 60) or `Poor`. -/
def scoreKind (rng : RangeInfo) (sel : List ZRow) : Except String (Option ℚ × Detail) :=
  if sel.isEmpty then .ok (none, .noData)
  else if sel.any (fun r => (valNum r.value).isNone) then
    .error "TypeError: ordering comparison of str and float"
  else
    let vals := sel.filterMap (fun r => valNum r.value)
    let n := sel.length
    let k := (vals.filter (fun v => decide (rng.minV ≤ v) && decide (v ≤ rng.maxV))).length
    let score : ℚ := (k : ℚ) / (n : ℚ) * 100
    let avg : ℚ := vals.sum / (vals.length : ℚ)
    let status := if 80 ≤ score then "Good"
      else if 60 ≤ score then "Needs Attention" else "Poor"
    .ok (some score, .stats status avg rng.minV rng.maxV n k)

/-- The fixed iteration order of the scoring loop. -/
def kindOrder : List String := ["temperature", "moisture", "light", "humidity"]

/-- The scoring loop of `calculate_compliance_score` over the kind order:
kinds absent from the vegetable's profile are skipped (`continue`) and get
no entry; scored kinds append their entries to `compliance_scores` and
`details` in loop order. -/
def scoreKinds (ranges : List (String × RangeInfo)) (recent : List ZRow) :
    List String → Except String (List (String × Option ℚ) × List (String × Detail))
  | [] => .ok ([], [])
  | k :: ks =>
    match List.lookup k ranges with
    | none => scoreKinds ranges recent ks
    | some rng =>
      match scoreKind rng (recent.filter (fun r => r.sensor_type == some k)) with
      | .error e => .error e
      | .ok (s, d) =>
        match scoreKinds ranges recent ks with
        | .error e => .error e
        | .ok (ss, ds) => .ok ((k, s) :: ss, (k, d) :: ds)

/-- The `recent_data` selection of `calculate_compliance_score`: rows of this
garden whose timestamp is at least `cutoff_time = now - timedelta(hours=w)`.
There is no upper time bound in the source. -/
def recentData (expanded : List ZRow) (gid : String) (cutoff : ℚ) : List ZRow :=
  expanded.filter (fun r => r.garden_id == gid && decide (cutoff ≤ r.timestamp))

/-- `IrrigationAnalyzer.calculate_compliance_score`, with `datetime.now()`
passed explicitly as `now` and the look-back window `time_window_hours` as
`wh` (in the same time unit as the timestamps).  `self.gardens[garden_id]`
and `self.vegetables[vegetable_type]` are direct indexings, so a missing key
raises (`Except.error`).  The overall score is the mean of the non-`None`
per-kind scores, or `0` when there are none. -/
def calcCompliance (cfg : Config) (expanded : List ZRow) (now wh : ℚ)
    (gid : String) : Except String ComplianceResult :=
  match List.lookup gid cfg.gardens with
  | none => .error ("KeyError: " ++ gid)
  | some garden =>
    match List.lookup garden.vegetable_type cfg.vegetables with
    | none => .error ("KeyError: " ++ garden.vegetable_type)
    | some ranges =>
      let recent := recentData expanded gid (now - wh)
      match scoreKinds ranges recent kindOrder with
      | .error e => .error e
      | .ok (ss, ds) =>
        let valid := ss.filterMap (fun p => p.2)
        let overall : ℚ := if valid.isEmpty then 0 else valid.sum / (valid.length : ℚ)
        .ok { garden_id := gid, vegetable_type := garden.vegetable_type,
              overall_score := overall, individual_scores := ss, details := ds }

/-! ### `IrrigationAnalyzer.get_irrigation_recommendations` -/

/-- One recommendation line, abstracted from its message text: the
constructor records which action the line announces and, where the message
is kind-specific, the kind it is about. -/
inductive Advice where
  | checkSensor (kind : String)
  | increase (kind : String)
  | decrease (kind : String)
  | withinRange (kind : String)
  | allOk
deriving DecidableEq, Repr

/-- The per-kind branch of `get_irrigation_recommendations`: `No data` yields
the check-sensors warning; a mean below the minimum yields an increase action
only for moisture, humidity or temperature (other kinds fall through the
`elif` chain and produce nothing); symmetrically above the maximum; a mean
within the range yields the affirmation for any kind. -/
def adviceForKind (kind : String) : Detail → List Advice
  | .noData => [.checkSensor kind]
  | .stats _ avg omin omax _ _ =>
    if avg < omin then
      if kind == "moisture" then [.increase "moisture"]
      else if kind == "humidity" then [.increase "humidity"]
      else if kind == "temperature" then [.increase "temperature"]
      else []
    else if omax < avg then
      if kind == "moisture" then [.decrease "moisture"]
      else if kind == "humidity" then [.decrease "humidity"]
      else if kind == "temperature" then [.decrease "temperature"]
      else []
    else [.withinRange kind]

/-- The default look-back window `time_window_hours=2400000` of
`calculate_compliance_score`, used by every caller inside the analyzer. -/
def defaultWindowHours : ℚ := 2400000

/-- `IrrigationAnalyzer.get_irrigation_recommendations`: score the garden
(with the scorer's default look-back window), derive the per-kind lines in
detail order, and fall back to the single all-parameters-OK line when no
line was produced. -/
def getRecommendations (cfg : Config) (expanded : List ZRow) (now : ℚ)
    (gid : String) : Except String (List Advice) :=
  match calcCompliance cfg expanded now defaultWindowHours gid with
  | .error e => .error e
  | .ok comp =>
    let recs := comp.details.flatMap (fun p => adviceForKind p.1 p.2)
    .ok (if recs.isEmpty then [.allOk] else recs)

/-- Modelled from the spec: the window-selection rule as the specification
states it — "Filter `ZoneReading`s to this zone and to timestamps within
`[windowStart, windowEnd]` inclusive".  Kept separate from `recentData`
(which embeds the source) so the two can be compared. -/
def specWindowData (expanded : List ZRow) (gid : String) (ws we : ℚ) : List ZRow :=
  expanded.filter (fun r =>
    r.garden_id == gid && decide (ws ≤ r.timestamp) && decide (r.timestamp ≤ we))

/-! ### Concrete instances used by the witnesses and counterexamples -/

/-- A small configuration: one garden growing tomato, whose profile scores
temperature (range 18–25) and moisture (range 40–70); one moisture sensor
mapped to the garden. -/
def cfgW : Config :=
  { gardens := [("g1", ⟨"G1", "L1", "tomato", true⟩)],
    vegetables := [("tomato", [("temperature", ⟨18, 25⟩), ("moisture", ⟨40, 70⟩)])],
    sensors := [("s1", ⟨"Soil_Moisture_1", "M"⟩)],
    sensor_garden_mapping := [("s1", ["g1"])] }

/-- Two moisture readings, values 50 and 80 (the spec's own worked example:
one of the two lies in the range 40–70). -/
def rowsW : List Reading :=
  [{ timestamp := 0, level := "INFO", rtype := "SoilSensor",
     sensor_id := some "s1", value := .num 50 },
   { timestamp := 1, level := "INFO", rtype := "SoilSensor",
     sensor_id := some "s1", value := .num 80 }]

/-- The first expanded row of `rowsW` under `cfgW`. -/
def zW1 : ZRow :=
  { timestamp := 0, sensor_id := some "s1", sensor_type := some "moisture",
    value := .num 50, garden_id := "g1", vegetable_type := "tomato", location := "L1" }

/-- The second expanded row of `rowsW` under `cfgW`. -/
def zW2 : ZRow := { zW1 with timestamp := 1, value := .num 80 }

/-- The compliance result of `cfgW` over `[zW1, zW2]`: moisture scores
1 of 2 in range (50 %, status `Poor`, mean 65), temperature has no data,
overall 50. -/
def resW : ComplianceResult :=
  { garden_id := "g1", vegetable_type := "tomato", overall_score := 50,
    individual_scores := [("temperature", none), ("moisture", some 50)],
    details := [("temperature", .noData), ("moisture", .stats "Poor" 65 40 70 2 1)] }

/-- Configuration for the window counterexample: one garden, profile scoring
only temperature with range 0–100. -/
def cfgC1 : Config :=
  { gardens := [("g1", ⟨"G1", "L1", "tomato", true⟩)],
    vegetables := [("tomato", [("temperature", ⟨0, 100⟩)])],
    sensors := [("t1", ⟨"Temperature_1", "T"⟩)],
    sensor_garden_mapping := [("t1", ["g1"])] }

/-- An in-window, in-range temperature reading (timestamp −1). -/
def zC1a : ZRow :=
  { timestamp := -1, sensor_id := some "t1", sensor_type := some "temperature",
    value := .num 50, garden_id := "g1", vegetable_type := "tomato", location := "L1" }

/-- A temperature reading dated after the window end (timestamp 5 > now = 0),
with an out-of-range value. -/
def zC1b : ZRow := { zC1a with timestamp := 5, value := .num 200 }

/-- Configuration for the free-text scoring failure: one garden, profile
scoring temperature, one temperature sensor mapped to it. -/
def cfgC2 : Config :=
  { gardens := [("g1", ⟨"G1", "L1", "tomato", true⟩)],
    vegetables := [("tomato", [("temperature", ⟨18, 25⟩)])],
    sensors := [("t1", ⟨"Temperature_1", "T"⟩)],
    sensor_garden_mapping := [("t1", ["g1"])] }

/-- A numeric temperature reading followed by a free-text reading from the
same temperature sensor (a fallback-shape line, e.g. an error message). -/
def rowsC2 : List Reading :=
  [{ timestamp := 0, level := "INFO", rtype := "TempSensor",
     sensor_id := some "t1", value := .num 20 },
   { timestamp := 1, level := "ERROR", rtype := "TempSensor",
     sensor_id := some "t1", value := .str "sensor fault" }]

/-- The expansion of `rowsC2` under `cfgC2`: both rows, including the
free-text one, are fanned out to the garden. -/
def exC2 : List ZRow :=
  [{ timestamp := 0, sensor_id := some "t1", sensor_type := some "temperature",
     value := .num 20, garden_id := "g1", vegetable_type := "tomato", location := "L1" },
   { timestamp := 1, sensor_id := some "t1", sensor_type := some "temperature",
     value := .str "sensor fault", garden_id := "g1", vegetable_type := "tomato",
     location := "L1" }]

/-- An initialization reading (`value = 'Init'`) from the mapped sensor
`s1`. -/
def rowInitW : Reading :=
  { timestamp := 0, level := "INFO", rtype := "SoilSensor",
    sensor_id := some "s1", value := .str "Init" }

/-- Configuration whose mapping sends sensor `s1` to a garden id `ghost`
that is not a key of `gardens`. -/
def cfgC10 : Config :=
  { gardens := [("g1", ⟨"G1", "L1", "tomato", true⟩)],
    vegetables := [("tomato", [("moisture", ⟨40, 70⟩)])],
    sensors := [("s1", ⟨"Soil_Moisture_1", "M"⟩)],
    sensor_garden_mapping := [("s1", ["ghost"])] }

/-- A measurement reading from the badly mapped sensor of `cfgC10`. -/
def rowNumW : Reading :=
  { timestamp := 0, level := "INFO", rtype := "SoilSensor",
    sensor_id := some "s1", value := .num 50 }

/-- Configuration for the recommendation counterexample: the garden's crop
profile scores only light, with range 50–60. -/
def cfgC6 : Config :=
  { gardens := [("g1", ⟨"G1", "L1", "lettuce", true⟩)],
    vegetables := [("lettuce", [("light", ⟨50, 60⟩)])],
    sensors := [("l1", ⟨"Light_1", "L"⟩)],
    sensor_garden_mapping := [("l1", ["g1"])] }

/-- A light reading far below the range minimum (10 < 50). -/
def zC6 : ZRow :=
  { timestamp := 0, sensor_id := some "l1", sensor_type := some "light",
    value := .num 10, garden_id := "g1", vegetable_type := "lettuce", location := "L1" }

/-! ### Theorems: ingestion (importer.py) -/

/-- Every input line either contributes one database row or is counted as
skipped, so the two counts partition the batch. -/
theorem import_length_split (lines : List String) :
    (importDatabase lines).length + skippedCount lines = lines.length := by
  induction lines with
  | nil => rfl
  | cons l ls ih =>
    cases h : parseLineS l with
    | none =>
      simp only [importDatabase, skippedCount, List.filterMap_cons, List.countP_cons, h,
        Option.isNone_none, List.length_cons, if_true] at ih ⊢
      omega
    | some r =>
      simp only [importDatabase, skippedCount, List.filterMap_cons, List.countP_cons, h,
        Option.isNone_some, List.length_cons, Bool.false_eq_true, if_false] at ih ⊢
      omega

/-- C3: for every finite input line sequence, ingestion returns the
successfully parsed readings plus a count of skipped lines; a line matching
none of the shapes is excluded from the record set, increases the skip count
by exactly one, and removes no successfully parsed reading of the other
lines of the batch.  (`skippedCount` is the number of dropped lines, which
the importer exposes only implicitly as lines-minus-rows.) -/
theorem import_skip_count (xs ys : List String) (b : String)
    (hb : parseLineS b = none) :
    importDatabase (xs ++ b :: ys) = importDatabase (xs ++ ys) ∧
    skippedCount (xs ++ b :: ys) = skippedCount (xs ++ ys) + 1 ∧
    (importDatabase (xs ++ b :: ys)).length + skippedCount (xs ++ b :: ys)
      = (xs ++ b :: ys).length := by
  refine ⟨?_, ?_, import_length_split _⟩
  · simp [importDatabase, List.filterMap_append, List.filterMap_cons, hb]
  · simp only [skippedCount, List.countP_append, List.countP_cons, hb,
      Option.isNone_none, if_pos]
    omega

/-- Witness for C3 on a concrete batch containing the unparseable line of the
repository's own test data. -/
theorem import_skip_count_witness :
    importDatabase (["[2025-01-15 10:30:15] INFO TempSensor[id=1001]: temperature=23.5"]
        ++ "Invalid log line that should be ignored"
        :: ["[2025-01-15 10:31:00] ERROR PumpCtrl[id=2002]: Pump failure on init"]) =
      importDatabase (["[2025-01-15 10:30:15] INFO TempSensor[id=1001]: temperature=23.5"]
        ++ ["[2025-01-15 10:31:00] ERROR PumpCtrl[id=2002]: Pump failure on init"]) ∧
    skippedCount (["[2025-01-15 10:30:15] INFO TempSensor[id=1001]: temperature=23.5"]
        ++ "Invalid log line that should be ignored"
        :: ["[2025-01-15 10:31:00] ERROR PumpCtrl[id=2002]: Pump failure on init"]) =
      skippedCount (["[2025-01-15 10:30:15] INFO TempSensor[id=1001]: temperature=23.5"]
        ++ ["[2025-01-15 10:31:00] ERROR PumpCtrl[id=2002]: Pump failure on init"]) + 1 ∧
    (importDatabase (["[2025-01-15 10:30:15] INFO TempSensor[id=1001]: temperature=23.5"]
        ++ "Invalid log line that should be ignored"
        :: ["[2025-01-15 10:31:00] ERROR PumpCtrl[id=2002]: Pump failure on init"])).length
      + skippedCount (["[2025-01-15 10:30:15] INFO TempSensor[id=1001]: temperature=23.5"]
        ++ "Invalid log line that should be ignored"
        :: ["[2025-01-15 10:31:00] ERROR PumpCtrl[id=2002]: Pump failure on init"]) =
      (["[2025-01-15 10:30:15] INFO TempSensor[id=1001]: temperature=23.5"]
        ++ "Invalid log line that should be ignored"
        :: ["[2025-01-15 10:31:00] ERROR PumpCtrl[id=2002]: Pump failure on init"]).length :=
  import_skip_count _ _ _ (by decide)

/-- C9: the three shapes are tried in the exact order initialization,
measurement, generic fallback, and the first match decides the line: an
initialization match yields the `Init` marker value and never a numeric
value; and for the winning shape of any line, a missing `[id=...]` group
yields a successfully parsed reading with an empty (absent) sensor id. -/
theorem parser_precedence (cs : List Char) :
    (∀ h, matchInit cs = some h →
      parseLine cs = (parseTimestamp h.ts).map (fun t => readingOf h t (.str "Init")) ∧
      ∀ r, parseLine cs = some r → r.value = .str "Init" ∧ ∀ q, r.value ≠ .num q) ∧
    (∀ h num, matchInit cs = none → matchMeas cs = some (h, num) →
      parseLine cs =
        (parseTimestamp h.ts).map (fun t => readingOf h t (.num (parseDecimal num)))) ∧
    (∀ h txt, matchInit cs = none → matchMeas cs = none → matchFallback cs = some (h, txt) →
      parseLine cs = (parseTimestamp h.ts).map (fun t => readingOf h t (.str ⟨txt⟩))) ∧
    (∀ h t, headOfLine cs = some h → h.sid = none → parseTimestamp h.ts = some t →
      ∃ r, parseLine cs = some r ∧ r.sensor_id = none ∧ r.timestamp = t) := by
  refine ⟨?_, ?_, ?_, ?_⟩
  · intro h hm
    constructor
    · simp [parseLine, hm]
    · intro r hr
      simp only [parseLine, hm, Option.map_eq_some'] at hr
      obtain ⟨t, _, rfl⟩ := hr
      exact ⟨rfl, by simp [readingOf]⟩
  · intro h num h1 h2
    simp [parseLine, h1, h2]
  · intro h txt h1 h2 h3
    simp [parseLine, h1, h2, h3]
  · intro h t hh hsid ht
    cases h1 : matchInit cs with
    | some h0 =>
      simp only [headOfLine, h1, Option.some.injEq] at hh
      subst hh
      exact ⟨readingOf h0 t (.str "Init"), by simp [parseLine, h1, ht],
        by simp [readingOf, hsid], rfl⟩
    | none =>
      cases h2 : matchMeas cs with
      | some p =>
        obtain ⟨h0, num⟩ := p
        simp only [headOfLine, h1, h2, Option.some.injEq] at hh
        subst hh
        exact ⟨readingOf h0 t (.num (parseDecimal num)), by simp [parseLine, h1, h2, ht],
          by simp [readingOf, hsid], rfl⟩
      | none =>
        cases h3 : matchFallback cs with
        | some p =>
          obtain ⟨h0, txt⟩ := p
          simp only [headOfLine, h1, h2, h3, Option.map_some', Option.some.injEq] at hh
          subst hh
          exact ⟨readingOf h0 t (.str ⟨txt⟩), by simp [parseLine, h1, h2, h3, ht],
            by simp [readingOf, hsid], rfl⟩
        | none => simp [headOfLine, h1, h2, h3] at hh

unseal Rat.add Rat.mul Rat.inv Rat.sub in
/-- Witness for C9 on a concrete measurement line without an `[id=...]`
group (taken from the repository's test data). -/
theorem parser_precedence_witness :
    parseLine (stripLine "[2025-01-15 10:31:15] INFO TempSensor: temperature=24.1") =
      (parseTimestamp ("2025-01-15 10:31:15".toList)).map
        (fun t => readingOf ⟨"2025-01-15 10:31:15".toList, "INFO".toList,
          "TempSensor".toList, none⟩ t (.num (parseDecimal "24.1".toList))) ∧
    (∃ r, parseLine (stripLine "[2025-01-15 10:31:15] INFO TempSensor: temperature=24.1")
        = some r ∧ r.sensor_id = none ∧ r.timestamp = encodeInstant 2025 1 15 10 31 15 []) :=
  ⟨((parser_precedence
      (stripLine "[2025-01-15 10:31:15] INFO TempSensor: temperature=24.1")).2.1
      ⟨"2025-01-15 10:31:15".toList, "INFO".toList, "TempSensor".toList, none⟩
      ("24.1".toList) (by decide) (by decide)),
   ((parser_precedence
      (stripLine "[2025-01-15 10:31:15] INFO TempSensor: temperature=24.1")).2.2.2
      ⟨"2025-01-15 10:31:15".toList, "INFO".toList, "TempSensor".toList, none⟩
      (encodeInstant 2025 1 15 10 31 15 []) (by decide) (by decide) (by decide))⟩

/-! ### Theorems: zone expansion (analyzer.py, `_prepare_data`) -/

/-- Inversion of `expandZones`: a successful fan-out of one row visits every
mapped garden id, so each one is a key of `gardens`, and the result is the
per-id list of enriched copies in mapping order. -/
theorem expandZones_ok (cfg : Config) (r : TRow) :
    ∀ gs zs, expandZones cfg r gs = .ok zs →
      zs = gs.filterMap (fun g => (List.lookup g cfg.gardens).map (zrowMk r g)) ∧
      ∀ g ∈ gs, ∃ gd, List.lookup g cfg.gardens = some gd := by
  intro gs
  induction gs with
  | nil =>
    intro zs h
    simp only [expandZones, Except.ok.injEq] at h
    simp [← h]
  | cons g gs ih =>
    intro zs h
    cases hg : List.lookup g cfg.gardens with
    | none => simp [expandZones, hg] at h
    | some gd =>
      cases hz : expandZones cfg r gs with
      | error e => simp [expandZones, hg, hz] at h
      | ok rest =>
        simp only [expandZones, hg, hz, Except.ok.injEq] at h
        obtain ⟨h1, h2⟩ := ih rest hz
        refine ⟨?_, ?_⟩
        · simp [← h, List.filterMap_cons, hg, h1]
        · intro g2 hm
          rcases List.mem_cons.mp hm with rfl | hm2
          · exact ⟨gd, hg⟩
          · exact h2 g2 hm2

/-- Inversion of `expandRow`: one row's successful expansion is described by
`expandRowD`, and every garden id the row is mapped to is present in
`gardens`. -/
theorem expandRow_ok (cfg : Config) (r : TRow) (zs : List ZRow)
    (h : expandRow cfg r = .ok zs) :
    zs = expandRowD cfg r ∧
    ∀ gs, r.garden_ids = some gs → ∀ g ∈ gs, ∃ gd, List.lookup g cfg.gardens = some gd := by
  cases hg : r.garden_ids with
  | none =>
    simp only [expandRow, hg, Except.ok.injEq] at h
    refine ⟨by simp [← h, expandRowD, hg], ?_⟩
    intro gs hgs
    simp at hgs
  | some gs =>
    simp only [expandRow, hg] at h
    obtain ⟨h1, h2⟩ := expandZones_ok cfg r gs zs h
    refine ⟨by simp [expandRowD, hg, h1], ?_⟩
    intro gs2 hgs2
    obtain rfl := Option.some.inj hgs2
    exact h2

/-- Inversion of the expansion loop: a successful preparation is the ordered
concatenation of the per-row `expandRowD` fan-outs, and every mapped garden
id occurring in the processed rows is a key of `gardens`. -/
theorem expandRows_ok (cfg : Config) :
    ∀ l zs, expandRows cfg l = .ok zs →
      zs = l.flatMap (expandRowD cfg) ∧
      ∀ r ∈ l, ∀ gs, r.garden_ids = some gs → ∀ g ∈ gs,
        ∃ gd, List.lookup g cfg.gardens = some gd := by
  intro l
  induction l with
  | nil =>
    intro zs h
    simp only [expandRows, Except.ok.injEq] at h
    simp [← h]
  | cons r rs ih =>
    intro zs h
    cases hr : expandRow cfg r with
    | error e => simp [expandRows, hr] at h
    | ok zs1 =>
      cases hrs : expandRows cfg rs with
      | error e => simp [expandRows, hr, hrs] at h
      | ok rest =>
        simp only [expandRows, hr, hrs, Except.ok.injEq] at h
        obtain ⟨e1, e2⟩ := expandRow_ok cfg r zs1 hr
        obtain ⟨f1, f2⟩ := ih rest hrs
        refine ⟨by simp [← h, List.flatMap_cons, e1, f1], ?_⟩
        intro r2 hm
        rcases List.mem_cons.mp hm with rfl | hm2
        · exact e2
        · exact f2 r2 hm2

/-- A `filterMap` whose function succeeds on every element preserves the
length. -/
theorem filterMap_all_some {α β : Type} (f : α → Option β) :
    ∀ l : List α, (∀ a ∈ l, (f a).isSome = true) → (l.filterMap f).length = l.length := by
  intro l
  induction l with
  | nil => intro _; rfl
  | cons a l ih =>
    intro hall
    have ha := hall a (by simp)
    cases hf : f a with
    | none => rw [hf] at ha; simp at ha
    | some b =>
      simp only [List.filterMap_cons, hf, List.length_cons]
      rw [ih (fun x hx => hall x (List.mem_cons_of_mem _ hx))]

unseal Rat.add Rat.mul Rat.inv Rat.sub in
/-- Counterexample to C5 as stated: the reading `rowInitW` carries sensor id
`s1`, which `cfgW.sensor_garden_mapping` maps to exactly one zone, yet the
expansion emits zero `ZoneReading`s, not one — `_prepare_data` removes
`Init` rows before the fan-out. -/
theorem zone_expansion_init_counterexample :
    List.lookup "s1" cfgW.sensor_garden_mapping = some ["g1"] ∧
    rowInitW.sensor_id = some "s1" ∧
    prepareData cfgW [rowInitW] = .ok [] := by
  decide

/-- C5 (amended): for every reading whose value is not the `Init` marker,
expansion emits exactly one `ZoneReading` per mapped zone, in mapping order,
each carrying that zone's own vegetable type and location; readings with no
sensor id or an unmapped sensor contribute nothing, and `Init` readings are
removed before expansion (`keptRows`). -/
theorem zone_expansion_amended (cfg : Config) (rows : List Reading) (zrows : List ZRow)
    (hok : prepareData cfg rows = .ok zrows) :
    zrows = (keptRows cfg rows).flatMap (expandRowD cfg) ∧
    (∀ r ∈ keptRows cfg rows, ∀ gs, r.garden_ids = some gs →
      (expandRowD cfg r).length = gs.length ∧
      ∀ g ∈ gs, ∃ gd, List.lookup g cfg.gardens = some gd ∧ zrowMk r g gd ∈ expandRowD cfg r) ∧
    (∀ r ∈ keptRows cfg rows, r.garden_ids = none → expandRowD cfg r = []) := by
  obtain ⟨h1, h2⟩ := expandRows_ok cfg (keptRows cfg rows) zrows hok
  refine ⟨h1, ?_, ?_⟩
  · intro r hr gs hgs
    have hall := h2 r hr gs hgs
    constructor
    · have hs : ∀ g ∈ gs, ((List.lookup g cfg.gardens).map (zrowMk r g)).isSome = true := by
        intro g hg
        obtain ⟨gd, hgd⟩ := hall g hg
        simp [hgd]
      have he : expandRowD cfg r
          = gs.filterMap (fun g => (List.lookup g cfg.gardens).map (zrowMk r g)) := by
        simp [expandRowD, hgs]
      rw [he, filterMap_all_some _ gs hs]
    · intro g hg
      obtain ⟨gd, hgd⟩ := hall g hg
      refine ⟨gd, hgd, ?_⟩
      simp only [expandRowD, hgs, Option.getD_some]
      exact List.mem_filterMap.mpr ⟨g, hg, by simp [hgd]⟩
  · intro r _ hnone
    simp [expandRowD, hnone]

unseal Rat.add Rat.mul Rat.inv Rat.sub in
/-- Witness for the amended C5 on the concrete fan-out of `rowsW` under
`cfgW`. -/
theorem zone_expansion_amended_witness :
    [zW1, zW2] = (keptRows cfgW rowsW).flatMap (expandRowD cfgW) ∧
    (∀ r ∈ keptRows cfgW rowsW, ∀ gs, r.garden_ids = some gs →
      (expandRowD cfgW r).length = gs.length ∧
      ∀ g ∈ gs, ∃ gd, List.lookup g cfgW.gardens = some gd ∧
        zrowMk r g gd ∈ expandRowD cfgW r) ∧
    (∀ r ∈ keptRows cfgW rowsW, r.garden_ids = none → expandRowD cfgW r = []) :=
  zone_expansion_amended cfgW rowsW [zW1, zW2] (by decide)

unseal Rat.add Rat.mul Rat.inv Rat.sub in
/-- Counterexample to C10 as stated: the reading `rowInitW` carries sensor
id `s1`, which `cfgC10.sensor_garden_mapping` maps to zone `ghost`, absent
from `gardens`; yet the analyzer's preparation succeeds instead of raising,
because the `Init` row is removed before the fan-out ever looks `ghost`
up. -/
theorem missing_garden_init_counterexample :
    List.lookup "s1" cfgC10.sensor_garden_mapping = some ["ghost"] ∧
    List.lookup "ghost" cfgC10.gardens = none ∧
    rowInitW.sensor_id = some "s1" ∧
    prepareData cfgC10 [rowInitW] = .ok [] := by
  decide

/-- C10 (amended): for every reading whose value is not the `Init` marker
and whose sensor is mapped to a zone id absent from `gardens`, the
preparation raises an unhandled `KeyError` and the analyzer's construction
aborts — no `ZoneReading` sequence is produced. -/
theorem missing_garden_aborts (cfg : Config) (rows : List Reading) (r : Reading)
    (hr : r ∈ rows) (hInit : isInitVal r.value = false)
    (s : String) (hs : r.sensor_id = some s)
    (gs : List String) (hgs : List.lookup s cfg.sensor_garden_mapping = some gs)
    (g : String) (hg : g ∈ gs) (hmiss : List.lookup g cfg.gardens = none) :
    ∃ e, prepareData cfg rows = .error e := by
  cases hres : prepareData cfg rows with
  | error e => exact ⟨e, rfl⟩
  | ok zs =>
    exfalso
    obtain ⟨_, h2⟩ := expandRows_ok cfg (keptRows cfg rows) zs hres
    have hmem : typeRow cfg r ∈ keptRows cfg rows := by
      unfold keptRows typeRows
      exact List.mem_filter.mpr ⟨List.mem_map.mpr ⟨r, hr, rfl⟩, by simp [typeRow, hInit]⟩
    obtain ⟨gd, hgd⟩ := h2 _ hmem gs (by simp [typeRow, hs, hgs]) g hg
    rw [hmiss] at hgd
    cases hgd

unseal Rat.add Rat.mul Rat.inv Rat.sub in
/-- Witness for the amended C10: a measurement reading from the badly mapped
sensor makes the preparation error out. -/
theorem missing_garden_aborts_witness :
    ∃ e, prepareData cfgC10 [rowNumW] = .error e :=
  missing_garden_aborts cfgC10 [rowNumW] rowNumW (by decide) (by decide) "s1" (by decide)
    ["ghost"] (by decide) "ghost" (by decide) (by decide)

/-! ### Theorems: compliance scoring (analyzer.py, `calculate_compliance_score`) -/

/-- Inversion of `scoreKind` on a statistics detail: the selection was
nonempty and all-numeric, and every reported field is the corresponding
aggregate of the selection. -/
theorem scoreKind_ok_stats (rng : RangeInfo) (sel : List ZRow) (s : Option ℚ)
    (st : String) (avg mn mx : ℚ) (n kk : Nat)
    (h : scoreKind rng sel = .ok (s, .stats st avg mn mx n kk)) :
    sel ≠ [] ∧ (∀ r ∈ sel, (valNum r.value).isSome = true) ∧
    n = sel.length ∧ mn = rng.minV ∧ mx = rng.maxV ∧
    kk = ((sel.filterMap (fun r => valNum r.value)).filter
      (fun v => decide (rng.minV ≤ v) && decide (v ≤ rng.maxV))).length ∧
    s = some ((kk : ℚ) / (n : ℚ) * 100) ∧
    avg = (sel.filterMap (fun r => valNum r.value)).sum /
      ((sel.filterMap (fun r => valNum r.value)).length : ℚ) := by
  unfold scoreKind at h
  split_ifs at h with h1 h2
  · simp at h
  · simp only [Except.ok.injEq, Prod.mk.injEq, Detail.stats.injEq] at h
    obtain ⟨hs, _, havg, hmn, hmx, hn, hkk⟩ := h
    have hsel : sel ≠ [] := by
      intro he
      rw [he] at h1
      simp at h1
    have hnum : ∀ r ∈ sel, (valNum r.value).isSome = true := by
      intro r hrm
      cases hv : valNum r.value with
      | none =>
        exact absurd (List.any_eq_true.mpr ⟨r, hrm, by simp [hv]⟩) h2
      | some q => rfl
    refine ⟨hsel, hnum, hn.symm, hmn.symm, hmx.symm, hkk.symm, ?_, havg.symm⟩
    rw [← hs, hn, hkk]

/-- Inversion of `scoreKind` on the `No data` detail: the selection was
empty and the score is `None`. -/
theorem scoreKind_ok_noData (rng : RangeInfo) (sel : List ZRow) (s : Option ℚ)
    (h : scoreKind rng sel = .ok (s, Detail.noData)) :
    sel = [] ∧ s = none := by
  unfold scoreKind at h
  split_ifs at h with h1 h2
  · simp only [Except.ok.injEq, Prod.mk.injEq] at h
    exact ⟨List.isEmpty_iff.mp h1, h.1.symm⟩
  · simp at h

/-- Inversion of the scoring loop by detail entry: every entry of the
details dictionary comes from scoring its kind's selection against its
kind's profile range, and its score entry sits in the scores dictionary. -/
theorem scoreKinds_ok_mem (ranges : List (String × RangeInfo)) (recent : List ZRow) :
    ∀ ks ss ds, scoreKinds ranges recent ks = .ok (ss, ds) →
      ∀ k d, (k, d) ∈ ds →
        ∃ rng s, List.lookup k ranges = some rng ∧
          scoreKind rng (recent.filter (fun r => r.sensor_type == some k)) = .ok (s, d) ∧
          (k, s) ∈ ss := by
  intro ks
  induction ks with
  | nil =>
    intro ss ds h k d hm
    simp only [scoreKinds, Except.ok.injEq, Prod.mk.injEq] at h
    rw [← h.2] at hm
    simp at hm
  | cons k0 ks ih =>
    intro ss ds h k d hm
    cases hl : List.lookup k0 ranges with
    | none =>
      simp only [scoreKinds, hl] at h
      exact ih ss ds h k d hm
    | some rng0 =>
      cases hs0 : scoreKind rng0 (recent.filter (fun r => r.sensor_type == some k0)) with
      | error e => simp [scoreKinds, hl, hs0] at h
      | ok p =>
        obtain ⟨s0, d0⟩ := p
        cases hrec : scoreKinds ranges recent ks with
        | error e => simp [scoreKinds, hl, hs0, hrec] at h
        | ok q =>
          obtain ⟨ss1, ds1⟩ := q
          simp only [scoreKinds, hl, hs0, hrec, Except.ok.injEq, Prod.mk.injEq] at h
          obtain ⟨hss, hds⟩ := h
          rw [← hds] at hm
          rcases List.mem_cons.mp hm with heq | hm2
          · injection heq with hk hd
            subst hk; subst hd
            exact ⟨rng0, s0, hl, hs0, by rw [← hss]; exact List.mem_cons_self _ _⟩
          · obtain ⟨rng, s, ha, hb, hc⟩ := ih ss1 ds1 hrec k d hm2
            exact ⟨rng, s, ha, hb, by rw [← hss]; exact List.mem_cons_of_mem _ hc⟩

/-- The scoring loop scores every kind of the iteration order that has a
profile range, and records both of its entries. -/
theorem scoreKinds_ok_kind (ranges : List (String × RangeInfo)) (recent : List ZRow) :
    ∀ ks ss ds, scoreKinds ranges recent ks = .ok (ss, ds) →
      ∀ k, k ∈ ks → ∀ rng, List.lookup k ranges = some rng →
        ∃ s d, scoreKind rng (recent.filter (fun r => r.sensor_type == some k)) = .ok (s, d) ∧
          (k, s) ∈ ss ∧ (k, d) ∈ ds := by
  intro ks
  induction ks with
  | nil =>
    intro ss ds h k hk
    simp at hk
  | cons k0 ks ih =>
    intro ss ds h k hk rng hrng
    rcases List.mem_cons.mp hk with rfl | hk2
    · simp only [scoreKinds, hrng] at h
      cases hs0 : scoreKind rng (recent.filter (fun r => r.sensor_type == some k)) with
      | error e => rw [hs0] at h; simp at h
      | ok p =>
        obtain ⟨s0, d0⟩ := p
        rw [hs0] at h
        cases hrec : scoreKinds ranges recent ks with
        | error e => rw [hrec] at h; simp at h
        | ok q =>
          obtain ⟨ss1, ds1⟩ := q
          rw [hrec] at h
          simp only [Except.ok.injEq, Prod.mk.injEq] at h
          obtain ⟨hss, hds⟩ := h
          exact ⟨s0, d0, rfl, by rw [← hss]; exact List.mem_cons_self _ _,
            by rw [← hds]; exact List.mem_cons_self _ _⟩
    · cases hl : List.lookup k0 ranges with
      | none =>
        simp only [scoreKinds, hl] at h
        exact ih ss ds h k hk2 rng hrng
      | some rng0 =>
        cases hs0 : scoreKind rng0 (recent.filter (fun r => r.sensor_type == some k0)) with
        | error e => simp [scoreKinds, hl, hs0] at h
        | ok p =>
          obtain ⟨s0, d0⟩ := p
          cases hrec : scoreKinds ranges recent ks with
          | error e => simp [scoreKinds, hl, hs0, hrec] at h
          | ok q =>
            obtain ⟨ss1, ds1⟩ := q
            simp only [scoreKinds, hl, hs0, hrec, Except.ok.injEq, Prod.mk.injEq] at h
            obtain ⟨hss, hds⟩ := h
            obtain ⟨s, d, ha, hb, hc⟩ := ih ss1 ds1 hrec k hk2 rng hrng
            exact ⟨s, d, ha, by rw [← hss]; exact List.mem_cons_of_mem _ hb,
              by rw [← hds]; exact List.mem_cons_of_mem _ hc⟩

/-- Inversion of `calculate_compliance_score`: a successful call resolves the
garden and its vegetable profile, scores the kinds over the `recent_data`
selection, and assembles the result dictionary, with the overall score the
mean of the defined per-kind scores (or `0`). -/
theorem calc_ok_inv (cfg : Config) (expanded : List ZRow) (now wh : ℚ) (gid : String)
    (res : ComplianceResult) (h : calcCompliance cfg expanded now wh gid = .ok res) :
    ∃ garden ranges ss ds,
      List.lookup gid cfg.gardens = some garden ∧
      List.lookup garden.vegetable_type cfg.vegetables = some ranges ∧
      scoreKinds ranges (recentData expanded gid (now - wh)) kindOrder = .ok (ss, ds) ∧
      res = { garden_id := gid, vegetable_type := garden.vegetable_type,
              overall_score := if (ss.filterMap (fun p => p.2)).isEmpty then 0
                else (ss.filterMap (fun p => p.2)).sum /
                  ((ss.filterMap (fun p => p.2)).length : ℚ),
              individual_scores := ss, details := ds } := by
  cases hg : List.lookup gid cfg.gardens with
  | none => simp [calcCompliance, hg] at h
  | some garden =>
    cases hv : List.lookup garden.vegetable_type cfg.vegetables with
    | none => simp [calcCompliance, hg, hv] at h
    | some ranges =>
      cases hsk : scoreKinds ranges (recentData expanded gid (now - wh)) kindOrder with
      | error e => simp [calcCompliance, hg, hv, hsk] at h
      | ok p =>
        obtain ⟨ss, ds⟩ := p
        simp only [calcCompliance, hg, hv, hsk, Except.ok.injEq] at h
        exact ⟨garden, ranges, ss, ds, rfl, hv, hsk, h.symm⟩

unseal Rat.add Rat.mul Rat.inv Rat.sub in
/-- Counterexample to C1 as stated: with `now = 0` and a 10-hour look-back
window (`windowStart = -10`, `windowEnd = now = 0`), the reading `zC1b` is
dated after the window end (timestamp 5 > 0) with the out-of-range value
200, yet the code's selection keeps it: the temperature score is 50, not
the 100 the inclusive-window claim predicts, because the source filters
only on `timestamp >= cutoff_time` and applies no upper bound. -/
theorem window_upper_bound_counterexample :
    recentData [zC1a, zC1b] "g1" (0 - 10) = [zC1a, zC1b] ∧
    specWindowData [zC1a, zC1b] "g1" (0 - 10) 0 = [zC1a] ∧
    calcCompliance cfgC1 [zC1a, zC1b] 0 10 "g1" =
      .ok { garden_id := "g1", vegetable_type := "tomato", overall_score := 50,
            individual_scores := [("temperature", some 50)],
            details := [("temperature", .stats "Poor" 125 0 100 2 1)] } := by
  decide

/-- C1 (amended): the compliance selection keeps exactly the readings of the
requested zone whose timestamp is at least `windowStart = now − window`;
there is no upper time bound, so readings dated after the evaluation
instant are included in every per-kind count. -/
theorem recent_data_lower_bound_only (cfg : Config) (expanded : List ZRow) (now wh : ℚ)
    (gid : String) (res : ComplianceResult)
    (hok : calcCompliance cfg expanded now wh gid = .ok res) :
    (∀ k st avg mn mx n kk, (k, Detail.stats st avg mn mx n kk) ∈ res.details →
      n = (expanded.filter (fun r =>
        ((r.garden_id == gid) && decide (now - wh ≤ r.timestamp))
          && r.sensor_type == some k)).length) ∧
    (∀ k, (k, Detail.noData) ∈ res.details →
      expanded.filter (fun r =>
        ((r.garden_id == gid) && decide (now - wh ≤ r.timestamp))
          && r.sensor_type == some k) = []) := by
  obtain ⟨garden, ranges, ss, ds, hg, hv, hsk, hres⟩ := calc_ok_inv cfg expanded now wh gid res hok
  subst hres
  have hff : ∀ k : String,
      (recentData expanded gid (now - wh)).filter (fun r => r.sensor_type == some k)
        = expanded.filter (fun r =>
            ((r.garden_id == gid) && decide (now - wh ≤ r.timestamp))
              && r.sensor_type == some k) := by
    intro k
    rw [recentData, List.filter_filter]
    exact List.filter_congr (fun a _ => by rw [Bool.and_comm])
  constructor
  · intro k st avg mn mx n kk hm
    obtain ⟨rng, s, hl, hsc, _⟩ := scoreKinds_ok_mem ranges _ kindOrder ss ds hsk k _ hm
    obtain ⟨_, _, hn, _⟩ := scoreKind_ok_stats rng _ s st avg mn mx n kk hsc
    rw [hn, hff k]
  · intro k hm
    obtain ⟨rng, s, hl, hsc, _⟩ := scoreKinds_ok_mem ranges _ kindOrder ss ds hsk k _ hm
    obtain ⟨hemp, _⟩ := scoreKind_ok_noData rng _ s hsc
    rw [← hff k, hemp]

unseal Rat.add Rat.mul Rat.inv Rat.sub in
/-- Witness for the amended C1 on the concrete result `resW`. -/
theorem recent_data_lower_bound_only_witness :
    (∀ k st avg mn mx n kk, (k, Detail.stats st avg mn mx n kk) ∈ resW.details →
      n = ([zW1, zW2].filter (fun r =>
        ((r.garden_id == "g1") && decide ((10 : ℚ) - 100 ≤ r.timestamp))
          && r.sensor_type == some k)).length) ∧
    (∀ k, (k, Detail.noData) ∈ resW.details →
      [zW1, zW2].filter (fun r =>
        ((r.garden_id == "g1") && decide ((10 : ℚ) - 100 ≤ r.timestamp))
          && r.sensor_type == some k) = []) :=
  recent_data_lower_bound_only cfgW [zW1, zW2] 10 100 "g1" resW (by decide)

/-- C4: every scored kind's compliance percentage is exactly `100·K/N`,
where `N ≥ 1` is the number of selected readings of that kind and `K` the
number of them whose value lies in the crop's target range, both bounds
inclusive — in particular a value equal to `min` or to `max` satisfies the
range predicate whenever the range is a genuine interval (`min ≤ max`). -/
theorem kind_score_formula (cfg : Config) (expanded : List ZRow) (now wh : ℚ)
    (gid : String) (res : ComplianceResult)
    (hok : calcCompliance cfg expanded now wh gid = .ok res)
    (k st : String) (avg mn mx : ℚ) (n kk : Nat)
    (hd : (k, Detail.stats st avg mn mx n kk) ∈ res.details) :
    (k, some (100 * (kk : ℚ) / (n : ℚ))) ∈ res.individual_scores ∧
    1 ≤ n ∧
    n = ((recentData expanded gid (now - wh)).filter
        (fun r => r.sensor_type == some k)).length ∧
    kk = ((((recentData expanded gid (now - wh)).filter
        (fun r => r.sensor_type == some k)).filterMap (fun r => valNum r.value)).filter
        (fun v => decide (mn ≤ v) && decide (v ≤ mx))).length ∧
    (mn ≤ mx → (decide (mn ≤ mn) && decide (mn ≤ mx)) = true ∧
      (decide (mn ≤ mx) && decide (mx ≤ mx)) = true) := by
  obtain ⟨garden, ranges, ss, ds, hg, hv, hsk, hres⟩ := calc_ok_inv cfg expanded now wh gid res hok
  subst hres
  obtain ⟨rng, s, hl, hsc, hmem⟩ := scoreKinds_ok_mem ranges _ kindOrder ss ds hsk k _ hd
  obtain ⟨hne, hnum, hn, hmn, hmx, hkk, hs, havg⟩ :=
    scoreKind_ok_stats rng _ s st avg mn mx n kk hsc
  refine ⟨?_, ?_, hn, ?_, ?_⟩
  · have hs2 : s = some (100 * (kk : ℚ) / (n : ℚ)) := by
      rw [hs]
      congr 1
      ring
    rw [← hs2]
    exact hmem
  · rw [hn]
    have := List.length_pos.mpr hne
    omega
  · rw [hmn, hmx]
    exact hkk
  · intro hle
    constructor <;> simp [hle]

unseal Rat.add Rat.mul Rat.inv Rat.sub in
/-- Witness for C4: moisture in `resW` scores 1 of 2 readings in range,
exactly `100·1/2 = 50`. -/
theorem kind_score_formula_witness :
    ("moisture", some (100 * ((1 : Nat) : ℚ) / ((2 : Nat) : ℚ))) ∈ resW.individual_scores ∧
    1 ≤ 2 ∧
    2 = ((recentData [zW1, zW2] "g1" ((10 : ℚ) - 100)).filter
        (fun r => r.sensor_type == some "moisture")).length ∧
    1 = ((((recentData [zW1, zW2] "g1" ((10 : ℚ) - 100)).filter
        (fun r => r.sensor_type == some "moisture")).filterMap
          (fun r => valNum r.value)).filter
        (fun v => decide ((40 : ℚ) ≤ v) && decide (v ≤ (70 : ℚ)))).length ∧
    ((40 : ℚ) ≤ (70 : ℚ) →
      (decide ((40 : ℚ) ≤ (40 : ℚ)) && decide ((40 : ℚ) ≤ (70 : ℚ))) = true ∧
      (decide ((40 : ℚ) ≤ (70 : ℚ)) && decide ((70 : ℚ) ≤ (70 : ℚ))) = true) :=
  kind_score_formula cfgW [zW1, zW2] 10 100 "g1" resW (by decide)
    "moisture" "Poor" 65 40 70 2 1 (by decide)

/-- C7: the overall score of a successful compliance computation is the
arithmetic mean of the defined per-kind scores, and exactly `0` (a defined
value, not an error) when no kind has a defined score. -/
theorem overall_score_mean (cfg : Config) (expanded : List ZRow) (now wh : ℚ)
    (gid : String) (res : ComplianceResult)
    (hok : calcCompliance cfg expanded now wh gid = .ok res) :
    (res.overall_score =
      if (res.individual_scores.filterMap (fun p => p.2)).isEmpty then 0
      else (res.individual_scores.filterMap (fun p => p.2)).sum /
        ((res.individual_scores.filterMap (fun p => p.2)).length : ℚ)) ∧
    ((∀ p ∈ res.individual_scores, p.2 = none) → res.overall_score = 0) := by
  obtain ⟨garden, ranges, ss, ds, hg, hv, hsk, hres⟩ := calc_ok_inv cfg expanded now wh gid res hok
  subst hres
  refine ⟨rfl, ?_⟩
  intro hall
  have he : ss.filterMap (fun p => p.2) = [] := List.filterMap_eq_nil_iff.mpr hall
  simp [he]

unseal Rat.add Rat.mul Rat.inv Rat.sub in
/-- Witness for C7 on `resW`: the defined scores are `[50]`, whose mean is
the overall score 50. -/
theorem overall_score_mean_witness :
    (resW.overall_score =
      if (resW.individual_scores.filterMap (fun p => p.2)).isEmpty then 0
      else (resW.individual_scores.filterMap (fun p => p.2)).sum /
        ((resW.individual_scores.filterMap (fun p => p.2)).length : ℚ)) ∧
    ((∀ p ∈ resW.individual_scores, p.2 = none) → resW.overall_score = 0) :=
  overall_score_mean cfgW [zW1, zW2] 10 100 "g1" resW (by decide)

/-- C8: a profiled kind whose in-window selection is empty gets the explicit
`No data` state — score entry `None`, detail `No data` — rather than a score
of `0` or an error (scoring an empty selection always succeeds), and the
remaining kinds are still scored (`res` is a successful result containing
the entry). -/
theorem no_data_kind (cfg : Config) (expanded : List ZRow) (now wh : ℚ) (gid : String)
    (res : ComplianceResult) (garden : GardenInfo)
    (ranges : List (String × RangeInfo)) (rng : RangeInfo) (k : String)
    (hok : calcCompliance cfg expanded now wh gid = .ok res)
    (hg : List.lookup gid cfg.gardens = some garden)
    (hv : List.lookup garden.vegetable_type cfg.vegetables = some ranges)
    (hk : k ∈ kindOrder)
    (hr : List.lookup k ranges = some rng)
    (hsel : (recentData expanded gid (now - wh)).filter
      (fun r => r.sensor_type == some k) = []) :
    (k, (none : Option ℚ)) ∈ res.individual_scores ∧
    (k, Detail.noData) ∈ res.details ∧
    Detail.statusOf Detail.noData = "No data" ∧
    scoreKind rng [] = .ok (none, Detail.noData) := by
  obtain ⟨garden2, ranges2, ss, ds, hg2, hv2, hsk, hres⟩ :=
    calc_ok_inv cfg expanded now wh gid res hok
  obtain rfl := Option.some.inj (hg.symm.trans hg2)
  obtain rfl := Option.some.inj (hv.symm.trans hv2)
  subst hres
  obtain ⟨s, d, hsc, hmemS, hmemD⟩ := scoreKinds_ok_kind ranges _ kindOrder ss ds hsk k hk rng hr
  have hk0 : scoreKind rng [] = .ok (none, Detail.noData) := by
    unfold scoreKind
    simp
  rw [hsel, hk0] at hsc
  simp only [Except.ok.injEq, Prod.mk.injEq] at hsc
  obtain ⟨hs, hd⟩ := hsc
  subst hs
  subst hd
  exact ⟨hmemS, hmemD, rfl, hk0⟩

unseal Rat.add Rat.mul Rat.inv Rat.sub in
/-- Witness for C8: temperature is profiled in `cfgW` but has no readings,
and `resW` carries its `No data` entries. -/
theorem no_data_kind_witness :
    ("temperature", (none : Option ℚ)) ∈ resW.individual_scores ∧
    ("temperature", Detail.noData) ∈ resW.details ∧
    Detail.statusOf Detail.noData = "No data" ∧
    scoreKind ⟨18, 25⟩ [] = .ok (none, Detail.noData) :=
  no_data_kind cfgW [zW1, zW2] 10 100 "g1" resW ⟨"G1", "L1", "tomato", true⟩
    [("temperature", ⟨18, 25⟩), ("moisture", ⟨40, 70⟩)] ⟨18, 25⟩ "temperature"
    (by decide) (by decide) (by decide) (by decide) (by decide) (by decide)

unseal Rat.add Rat.mul Rat.inv Rat.sub in
/-- C2 (code bug): a free-text reading is retained through preparation and
fanned out to its garden, and a free-text reading of a scored kind then
makes the per-kind range comparison raise a `TypeError` — the computation
does not restrict itself to numeric values as the specification states. -/
theorem freetext_scoring_raises :
    prepareData cfgC2 rowsC2 = .ok exC2 ∧
    calcCompliance cfgC2 exC2 10 100 "g1" =
      .error "TypeError: ordering comparison of str and float" := by
  decide

/-! ### Theorems: recommendations (analyzer.py, `get_irrigation_recommendations`) -/

unseal Rat.add Rat.mul Rat.inv Rat.sub in
/-- Counterexample to C6 as stated: in `cfgC6` the only scored kind is
light, whose mean 10 lies below the range minimum 50, so the claim predicts
exactly one light-specific "increase" line; the code's `elif` chain has no
branch for light, produces no line at all, and the empty list then triggers
the all-parameters-OK fallback line. -/
theorem recommendations_light_counterexample :
    calcCompliance cfgC6 [zC6] 0 defaultWindowHours "g1" =
      .ok { garden_id := "g1", vegetable_type := "lettuce", overall_score := 0,
            individual_scores := [("light", some 0)],
            details := [("light", .stats "Poor" 10 50 60 1 0)] } ∧
    getRecommendations cfgC6 [zC6] 0 "g1" = .ok [Advice.allOk] := by
  decide

/-- C6 (amended): the recommendation list is the concatenation of the
per-kind lines in detail order (with a single all-OK line when it would be
empty), and every scored kind yields at most one line: exactly the
check-sensor warning on `No data`, the affirmation when the mean is within
range, and the kind-specific increase/decrease action when out of range —
except that a kind other than moisture, humidity and temperature (i.e.
light) yields no line at all when its mean is out of range. -/
theorem recommendations_amended (cfg : Config) (expanded : List ZRow) (now : ℚ)
    (gid : String) (comp : ComplianceResult) (recs : List Advice)
    (hok : calcCompliance cfg expanded now defaultWindowHours gid = .ok comp)
    (hrec : getRecommendations cfg expanded now gid = .ok recs) :
    (recs = if (comp.details.flatMap (fun p => adviceForKind p.1 p.2)).isEmpty
        then [Advice.allOk] else comp.details.flatMap (fun p => adviceForKind p.1 p.2)) ∧
    (∀ k d, (k, d) ∈ comp.details →
      (adviceForKind k d).length ≤ 1 ∧
      (adviceForKind k d = [] ↔ ∃ st avg mn mx n kk, d = Detail.stats st avg mn mx n kk ∧
        (avg < mn ∨ mx < avg) ∧ k ≠ "moisture" ∧ k ≠ "humidity" ∧ k ≠ "temperature") ∧
      (d = Detail.noData → adviceForKind k d = [Advice.checkSensor k]) ∧
      (∀ st avg mn mx n kk, d = Detail.stats st avg mn mx n kk →
        (mn ≤ avg → avg ≤ mx → adviceForKind k d = [Advice.withinRange k]) ∧
        (avg < mn → (k = "moisture" ∨ k = "humidity" ∨ k = "temperature") →
          adviceForKind k d = [Advice.increase k]) ∧
        (¬ avg < mn → mx < avg → (k = "moisture" ∨ k = "humidity" ∨ k = "temperature") →
          adviceForKind k d = [Advice.decrease k]))) := by
  constructor
  · simp only [getRecommendations, hok] at hrec
    exact (Except.ok.inj hrec).symm
  · intro k d _
    cases d with
    | noData =>
      refine ⟨by simp [adviceForKind], ?_, fun _ => rfl, ?_⟩
      · constructor
        · intro hcontra
          simp [adviceForKind] at hcontra
        · rintro ⟨st, avg, mn, mx, n, kk, hcontra, _⟩
          exact absurd hcontra (by simp)
      · intro st avg mn mx n kk hcontra
        exact absurd hcontra (by simp)
    | stats st0 avg mn mx n kk =>
      have hev : ∀ ka : String, adviceForKind ka (Detail.stats st0 avg mn mx n kk) =
          if avg < mn then
            (if ka == "moisture" then [Advice.increase "moisture"]
             else if ka == "humidity" then [Advice.increase "humidity"]
             else if ka == "temperature" then [Advice.increase "temperature"] else [])
          else if mx < avg then
            (if ka == "moisture" then [Advice.decrease "moisture"]
             else if ka == "humidity" then [Advice.decrease "humidity"]
             else if ka == "temperature" then [Advice.decrease "temperature"] else [])
          else [Advice.withinRange ka] := fun ka => rfl
      refine ⟨?_, ?_, ?_, ?_⟩
      · rw [hev k]
        split_ifs <;> simp
      · constructor
        · intro hnil
          rw [hev k] at hnil
          by_cases h1 : avg < mn
          · rw [if_pos h1] at hnil
            by_cases hm : k = "moisture"
            · simp [hm] at hnil
            · by_cases hh : k = "humidity"
              · simp [hm, hh] at hnil
              · by_cases ht : k = "temperature"
                · simp [hm, hh, ht] at hnil
                · exact ⟨st0, avg, mn, mx, n, kk, rfl, Or.inl h1, hm, hh, ht⟩
          · rw [if_neg h1] at hnil
            by_cases h2 : mx < avg
            · rw [if_pos h2] at hnil
              by_cases hm : k = "moisture"
              · simp [hm] at hnil
              · by_cases hh : k = "humidity"
                · simp [hm, hh] at hnil
                · by_cases ht : k = "temperature"
                  · simp [hm, hh, ht] at hnil
                  · exact ⟨st0, avg, mn, mx, n, kk, rfl, Or.inr h2, hm, hh, ht⟩
            · rw [if_neg h2] at hnil
              simp at hnil
        · rintro ⟨st1, avg1, mn1, mx1, n1, kk1, heq, hor, hm, hh, ht⟩
          injection heq with e1 e2 e3 e4 e5 e6
          subst e2; subst e3; subst e4
          rcases hor with h1 | h2
          · simp [hev k, h1, hm, hh, ht]
          · by_cases h1 : avg < mn <;> simp [hev k, h1, h2, hm, hh, ht]
      · intro hcontra
        exact absurd hcontra (by simp)
      · intro st1 avg1 mn1 mx1 n1 kk1 heq
        injection heq with e1 e2 e3 e4 e5 e6
        subst e2; subst e3; subst e4
        refine ⟨?_, ?_, ?_⟩
        · intro hge hle
          have h1 : ¬ avg < mn := not_lt.mpr hge
          have h2 : ¬ mx < avg := not_lt.mpr hle
          simp [hev k, h1, h2]
        · intro h1 hk3
          rcases hk3 with rfl | rfl | rfl <;> simp [hev _, h1]
        · intro h1 h2 hk3
          rcases hk3 with rfl | rfl | rfl <;> simp [hev _, h1, h2]

unseal Rat.add Rat.mul Rat.inv Rat.sub in
/-- Witness for the amended C6 on `cfgW`: temperature has no data and
moisture's mean 65 is within range, so the two lines are the check-sensor
warning and the affirmation. -/
theorem recommendations_amended_witness :
    ([Advice.checkSensor "temperature", Advice.withinRange "moisture"] =
      if (resW.details.flatMap (fun p => adviceForKind p.1 p.2)).isEmpty
      then [Advice.allOk] else resW.details.flatMap (fun p => adviceForKind p.1 p.2)) ∧
    (∀ k d, (k, d) ∈ resW.details →
      (adviceForKind k d).length ≤ 1 ∧
      (adviceForKind k d = [] ↔ ∃ st avg mn mx n kk, d = Detail.stats st avg mn mx n kk ∧
        (avg < mn ∨ mx < avg) ∧ k ≠ "moisture" ∧ k ≠ "humidity" ∧ k ≠ "temperature") ∧
      (d = Detail.noData → adviceForKind k d = [Advice.checkSensor k]) ∧
      (∀ st avg mn mx n kk, d = Detail.stats st avg mn mx n kk →
        (mn ≤ avg → avg ≤ mx → adviceForKind k d = [Advice.withinRange k]) ∧
        (avg < mn → (k = "moisture" ∨ k = "humidity" ∨ k = "temperature") →
          adviceForKind k d = [Advice.increase k]) ∧
        (¬ avg < mn → mx < avg → (k = "moisture" ∨ k = "humidity" ∨ k = "temperature") →
          adviceForKind k d = [Advice.decrease k]))) :=
  recommendations_amended cfgW [zW1, zW2] 10 "g1" resW
    [Advice.checkSensor "temperature", Advice.withinRange "moisture"] (by decide) (by decide)

end AG
